import Mathlib

set_option maxRecDepth 3000

/-!
Shallow embedding of the `infoliTask` class defined in `infoliLauncher.ipynb`.

Strings are modelled as `List Char`, Python floats as `ℚ` (all numeric
literals appearing in the claims are dyadic rationals, hence exact), and
Python ints as `ℤ`.  The external process launched by `runTask` is modelled
by passing in the two `time.time()` readings and the captured stdout text as
arguments; the ambient module-level constant `RERUN` is likewise an explicit
argument.  Fallible operations (`__init__` validation, `float()` conversion)
return `Except`/`Option`.
-/

/-- Python `str.find` on character lists: index of the first occurrence of
`pat` in the tail of the second argument, or `-1` when absent. -/
def findSub (pat : List Char) : List Char → Int
  | [] => if pat.isEmpty then 0 else -1
  | c :: rest =>
    if pat.isPrefixOf (c :: rest) then 0
    else
      let r := findSub pat rest
      if r < 0 then -1 else r + 1

/-- `pyFind s pat` is Python `s.find(pat)`. -/
def pyFind (s pat : List Char) : Int := findSub pat s

/-- Python slice `s[:b]` where `b` may be negative (counting from the end,
clamped at 0 exactly as Python does). -/
def pySliceTo (s : List Char) (b : Int) : List Char :=
  if b < 0 then s.take (s.length - b.natAbs) else s.take b.toNat

/-- Python slice `s[a:]` for a non-negative start index. -/
def pySliceFrom (s : List Char) (a : Nat) : List Char := s.drop a

def isPyDigit (c : Char) : Bool := '0' ≤ c && c ≤ '9'

/-- The ASCII whitespace characters stripped by Python `float(str)`. -/
def isPySpace (c : Char) : Bool :=
  c = ' ' || c = '\t' || c = '\n' || c = '\r' || c = '\x0b' || c = '\x0c'

def stripWs (s : List Char) : List Char :=
  ((s.dropWhile isPySpace).reverse.dropWhile isPySpace).reverse

def digitsVal (ds : List Char) : ℕ :=
  ds.foldl (fun n c => 10 * n + (c.toNat - 48)) 0

/-- Unsigned part of Python `float(str)` on a decimal literal:
`digits [. digits]` or `. digits`, with an optional `e`/`E` exponent.
Exotic accepted forms (`inf`, `nan`, digit-group underscores) are not
modelled; on the plain decimal grammar this agrees with Python. -/
def pyFloatCore (s : List Char) : Option ℚ :=
  let ip := s.takeWhile isPyDigit
  let r1 := s.dropWhile isPyDigit
  let fp : List Char :=
    match r1 with
    | '.' :: rest => rest.takeWhile isPyDigit
    | _ => []
  let r2 : List Char :=
    match r1 with
    | '.' :: rest => rest.dropWhile isPyDigit
    | _ => r1
  if ip.isEmpty && fp.isEmpty then none
  else
    let mant : ℚ := (digitsVal (ip ++ fp) : ℚ) / ((10 : ℚ) ^ fp.length)
    match r2 with
    | [] => some mant
    | e :: rest =>
      if e = 'e' ∨ e = 'E' then
        let negExp : Bool := match rest with | '-' :: _ => true | _ => false
        let rest2 : List Char :=
          match rest with
          | '+' :: r => r
          | '-' :: r => r
          | r => r
        let ed := rest2.takeWhile isPyDigit
        let r3 := rest2.dropWhile isPyDigit
        if ed.isEmpty || !r3.isEmpty then none
        else if negExp then some (mant / (10 : ℚ) ^ digitsVal ed)
        else some (mant * (10 : ℚ) ^ digitsVal ed)
      else none

/-- Python `float(str)` (see `pyFloatCore`): strip whitespace, optional sign,
then the decimal grammar; `none` models the raised `ValueError`. -/
def pyFloat? (s : List Char) : Option ℚ :=
  match stripWs s with
  | '+' :: rest => pyFloatCore rest
  | '-' :: rest => (pyFloatCore rest).map Neg.neg
  | rest => pyFloatCore rest

/-- Python `int()` applied to a float/rational: truncation toward zero. -/
def pyInt (q : ℚ) : ℤ :=
  if q < 0 then -(q.num.natAbs / q.den : ℕ) else (q.num.natAbs / q.den : ℕ)

/-- The state of one `infoliTask` object: the six (name-mangled) configuration
fields followed by the eight result fields, exactly as assigned in
`__init__`. -/
structure infoliTask where
  simTime : ℚ
  connectivity : ℚ
  neurons : ℤ
  memory : ℤ
  CPU : ℚ
  timeout : ℤ
  setupTime : ℚ
  execTime : ℚ
  startExec : ℚ
  endExec : ℚ
  measTime : ℚ
  executed : Bool
  endedInTimeout : Bool
  endedInError : Bool
deriving DecidableEq

/-- `infoliTask.__init__`: the six validation checks in source order (with the
source's exact `ValueError` messages), then the field assignments, `int()`
coercions included. -/
def infoliTask.init (neurons connectivity simTime memory cpu timeout : ℚ) :
    Except String infoliTask :=
  if neurons < 1 then Except.error "Number of neurons must be at least 1"
  else if connectivity < 0 ∨ connectivity > 1 then
    Except.error "Connectivity must lie within range [0,1]"
  else if simTime ≤ 0 then Except.error "simTime has to be larger than 0"
  else if memory ≤ 0 then Except.error "Memory must be larger than 0 MB"
  else if cpu ≤ 0 then
    Except.error "Number of CPUs must be a number larger than 0"
  else if timeout < 0 then
    Except.error "Timout must be either 0 (no timeout defined) or a positive number."
  else Except.ok
    { simTime := simTime
      connectivity := connectivity
      neurons := pyInt neurons
      memory := pyInt memory
      CPU := cpu
      timeout := pyInt timeout
      setupTime := 0
      execTime := 0
      startExec := 0
      endExec := 0
      measTime := 0
      executed := false
      endedInTimeout := false
      endedInError := false }

def infoliTask.hasFinished (s : infoliTask) : Bool := s.executed

def infoliTask.hasTimeout (s : infoliTask) : Bool := s.endedInTimeout

/-- A Python value as it appears in the dictionaries built by `getData` /
written by `writeToCSV`. -/
inductive PyVal where
  | int (z : ℤ)
  | float (q : ℚ)
  | bool (b : Bool)
  | str (s : String)
deriving DecidableEq

/-- The `"parameters"` dictionary of `getData`, in source key order. -/
def paramsDict (s : infoliTask) : List (String × PyVal) :=
  [("simTime", PyVal.float s.simTime),
   ("connectivity", PyVal.float s.connectivity),
   ("neurons", PyVal.int s.neurons),
   ("memory", PyVal.int s.memory),
   ("CPU", PyVal.float s.CPU),
   ("timeout", PyVal.int s.timeout)]

/-- The `"results"` dictionary of `getData`, in source key order. -/
def resultsDict (s : infoliTask) : List (String × PyVal) :=
  [("hasExecuted", PyVal.bool s.executed),
   ("setupTime", PyVal.float s.setupTime),
   ("execTime", PyVal.float s.execTime),
   ("startTime", PyVal.float s.startExec),
   ("endTime", PyVal.float s.endExec),
   ("measureTime", PyVal.float s.measTime),
   ("hasEndedInTimeout", PyVal.bool s.endedInTimeout),
   ("hasEndedInError", PyVal.bool s.endedInError)]

/-- `infoliTask.getData`: the pair of the `"parameters"` and `"results"`
dictionaries (insertion-ordered association lists). -/
def infoliTask.getData (s : infoliTask) : List (String × PyVal) × List (String × PyVal) :=
  (paramsDict s, resultsDict s)

/-- Python `dict.update`: keys already present keep their position and take
the new value; new keys are appended in the second dictionary's order. -/
def dictUpdate (d1 d2 : List (String × PyVal)) : List (String × PyVal) :=
  d2.foldl
    (fun d kv =>
      if (d.lookup kv.1).isSome then
        d.map (fun p => if p.1 = kv.1 then (p.1, kv.2) else p)
      else d ++ [kv])
    d1

/-- The string patterns scanned for by `runTask`. -/
def notimeoutPat : List Char := "NOTIMEOUT".toList

def setupPat : List Char := "\nSetup:".toList

def runPat : List Char := " Run: ".toList

def peakPat : List Char := " \nPeak".toList

/-- `firstCut = myResult[myResult.find("\nSetup:")+8:]` (the index is at
least `-1 + 8 = 7 ≥ 0`, so the plain non-negative slice applies). -/
def firstCutOf (out : List Char) : List Char :=
  pySliceFrom out (pyFind out setupPat + 8).toNat

/-- `firstCut[0:firstCut.find(" Run: ")]`, the text converted by the first
`float()` call. -/
def setupSliceOf (out : List Char) : List Char :=
  pySliceTo (firstCutOf out) (pyFind (firstCutOf out) runPat)

/-- The reassigned `firstCut = firstCut[value+6:]` (the index is at least
`-1 + 6 = 5 ≥ 0`). -/
def secondCutOf (out : List Char) : List Char :=
  pySliceFrom (firstCutOf out) (pyFind (firstCutOf out) runPat + 6).toNat

/-- `firstCut[:firstCut.find(" \nPeak")]`, the text converted by the second
`float()` call. -/
def execSliceOf (out : List Char) : List Char :=
  pySliceTo (secondCutOf out) (pyFind (secondCutOf out) peakPat)

/-- `infoliTask.runTask(self, rerun=False)`.

The body never reads its `rerun` parameter: the early-return branch is gated
on the module-level constant `RERUN`, passed here explicitly.  `t0` and `t1`
are the two `time.time()` readings and `stdout` the decoded stdout of the
`subprocess.run` call.  Returns the updated object state together with the
returned value (`none` for the bare `return` of the skip branch, `some` of
the captured text otherwise).  The `try`/`except` around the scan is modelled
by matching on the two fallible `float()` conversions in assignment order:
if the first succeeds and the second fails, `setupTime` keeps the freshly
parsed value, as in the source.  The field assignments made before the
branch (`startExec`, `endExec`, `measTime`, `executed`) are flattened into
each branch's record update. -/
def infoliTask.runTask (s : infoliTask) (rerun RERUN : Bool) (t0 t1 : ℚ)
    (stdout : List Char) : infoliTask × Option (List Char) :=
  if s.executed && !RERUN then (s, none)
  else if ¬ (pyFind stdout notimeoutPat > -1) then
    ({ s with startExec := t0, endExec := t1, measTime := t1 - t0,
              executed := true, endedInTimeout := true }, some stdout)
  else
    match pyFloat? (setupSliceOf stdout) with
    | none =>
      ({ s with startExec := t0, endExec := t1, measTime := t1 - t0,
                executed := true, endedInTimeout := false,
                endedInError := true }, some stdout)
    | some st =>
      match pyFloat? (execSliceOf stdout) with
      | none =>
        ({ s with startExec := t0, endExec := t1, measTime := t1 - t0,
                  executed := true, setupTime := st, endedInTimeout := false,
                  endedInError := true }, some stdout)
      | some ex =>
        ({ s with startExec := t0, endExec := t1, measTime := t1 - t0,
                  executed := true, setupTime := st, execTime := ex,
                  endedInTimeout := false, endedInError := false }, some stdout)

/-- `d1` of `writeToCSV`: the parameters dictionary updated with the results
dictionary (result values win on a key collision). -/
def mergedData (s : infoliTask) : List (String × PyVal) :=
  dictUpdate (s.getData).1 (s.getData).2

/-- `csv_columns = [k for k in d1.keys()]`. -/
def csvColumns (s : infoliTask) : List String :=
  (mergedData s).map Prod.fst

/-- The header row written by `writer.writeheader()`. -/
def headerRowOf (s : infoliTask) : List PyVal :=
  (csvColumns s).map PyVal.str

/-- The data row written by `writer.writerow(d1)`: for each field name the
value under it in `d1` (`csv.DictWriter`'s default `restval` of `''` for a
missing key, unreachable here since the field names are `d1`'s keys). -/
def dataRowOf (s : infoliTask) : List PyVal :=
  (csvColumns s).map
    (fun k =>
      match (mergedData s).lookup k with
      | some v => v
      | none => PyVal.str "")

/-- `infoliTask.writeToCSV`: `file` is the prior contents of the destination
file (`none` when `os.path.isfile` is false), rows being lists of cells; the
result is the contents after the call (opened in append mode, header written
only when the file did not exist). -/
def infoliTask.writeToCSV (s : infoliTask) (file : Option (List (List PyVal))) :
    List (List PyVal) :=
  match file with
  | none => [headerRowOf s, dataRowOf s]
  | some rows => rows ++ [dataRowOf s]

/-- A task state as produced by the constructor from the notebook's default
sweep-style parameters; used to instantiate concrete runs. -/
def sampleTask : infoliTask :=
  { simTime := 1/100000
    connectivity := 1/100
    neurons := 1000
    memory := 1024
    CPU := 1
    timeout := 86400
    setupTime := 0
    execTime := 0
    startExec := 0
    endExec := 0
    measTime := 0
    executed := false
    endedInTimeout := false
    endedInError := false }

/-- A task state whose has-executed flag is already true. -/
def sampleExecutedTask : infoliTask :=
  { sampleTask with executed := true }

/-- A well-formed captured output text of the shape
`"...\nSetup: 1.250000 Run: 3.750000 \nPeak...NOTIMEOUT..."`. -/
def sampleOut : List Char :=
  ("Container booting\nSetup: 1.250000 Run: 3.750000 \nPeak memory: 42\nNOTIMEOUT\n").toList

/-- An output text that contains `NOTIMEOUT` but a malformed numeric field
(`"Setup: abc Run: ..."`). -/
def malformedOut : List Char :=
  ("NOTIMEOUT\nSetup: abc Run: 1.0 \nPeak\n").toList

/-- On a successful construction, the resulting object state is exactly the
assignment block of `__init__`. -/
theorem init_ok_fields {n c d m cp tmo : ℚ} {t : infoliTask}
    (h : infoliTask.init n c d m cp tmo = Except.ok t) :
    t = { simTime := d, connectivity := c, neurons := pyInt n, memory := pyInt m,
          CPU := cp, timeout := pyInt tmo, setupTime := 0, execTime := 0,
          startExec := 0, endExec := 0, measTime := 0, executed := false,
          endedInTimeout := false, endedInError := false } := by
  unfold infoliTask.init at h
  split_ifs at h <;> cases h <;> rfl

/-- The skip branch of `runTask`: taken exactly when the object has executed
and the module-level `RERUN` constant is false; the object is untouched and
the bare `return` yields `None`. -/
theorem runTask_skip (s : infoliTask) (rerun RERUN : Bool) (t0 t1 : ℚ)
    (out : List Char) (h : (s.executed && !RERUN) = true) :
    s.runTask rerun RERUN t0 t1 out = (s, none) := by
  unfold infoliTask.runTask
  rw [if_pos h]

/-- The timeout branch of `runTask`: the marker `NOTIMEOUT` is absent from
the captured text. -/
theorem runTask_timeout (s : infoliTask) (rerun RERUN : Bool) (t0 t1 : ℚ)
    (out : List Char) (hrun : (s.executed && !RERUN) = false)
    (hnt : ¬ (pyFind out notimeoutPat > -1)) :
    s.runTask rerun RERUN t0 t1 out =
      ({ s with startExec := t0, endExec := t1, measTime := t1 - t0,
                executed := true, endedInTimeout := true }, some out) := by
  unfold infoliTask.runTask
  rw [hrun, if_neg Bool.false_ne_true, if_pos hnt]

/-- The first error branch of `runTask`: marker present, but the first
`float()` conversion raises. -/
theorem runTask_err_setup (s : infoliTask) (rerun RERUN : Bool) (t0 t1 : ℚ)
    (out : List Char) (hrun : (s.executed && !RERUN) = false)
    (hnt : pyFind out notimeoutPat > -1)
    (h1 : pyFloat? (setupSliceOf out) = none) :
    s.runTask rerun RERUN t0 t1 out =
      ({ s with startExec := t0, endExec := t1, measTime := t1 - t0,
                executed := true, endedInTimeout := false,
                endedInError := true }, some out) := by
  unfold infoliTask.runTask
  rw [hrun, if_neg Bool.false_ne_true, if_neg (not_not_intro hnt), h1]

/-- The second error branch of `runTask`: the first `float()` conversion
succeeds (its value is assigned to `setupTime`), the second raises. -/
theorem runTask_err_exec (s : infoliTask) (rerun RERUN : Bool) (t0 t1 : ℚ)
    (out : List Char) (st : ℚ) (hrun : (s.executed && !RERUN) = false)
    (hnt : pyFind out notimeoutPat > -1)
    (h1 : pyFloat? (setupSliceOf out) = some st)
    (h2 : pyFloat? (execSliceOf out) = none) :
    s.runTask rerun RERUN t0 t1 out =
      ({ s with startExec := t0, endExec := t1, measTime := t1 - t0,
                executed := true, setupTime := st, endedInTimeout := false,
                endedInError := true }, some out) := by
  unfold infoliTask.runTask
  rw [hrun, if_neg Bool.false_ne_true, if_neg (not_not_intro hnt), h1, h2]

/-- The success branch of `runTask`: marker present and both `float()`
conversions succeed. -/
theorem runTask_ok (s : infoliTask) (rerun RERUN : Bool) (t0 t1 : ℚ)
    (out : List Char) (st ex : ℚ) (hrun : (s.executed && !RERUN) = false)
    (hnt : pyFind out notimeoutPat > -1)
    (h1 : pyFloat? (setupSliceOf out) = some st)
    (h2 : pyFloat? (execSliceOf out) = some ex) :
    s.runTask rerun RERUN t0 t1 out =
      ({ s with startExec := t0, endExec := t1, measTime := t1 - t0,
                executed := true, setupTime := st, execTime := ex,
                endedInTimeout := false, endedInError := false }, some out) := by
  unfold infoliTask.runTask
  rw [hrun, if_neg Bool.false_ne_true, if_neg (not_not_intro hnt), h1, h2]

/-- Claim C1 counterexample: with the notebook's shipped configuration
`RERUN = True`, calling `runTask(rerun=False)` on an already-executed task is
not a no-op.  The body never reads its `rerun` parameter — the early-return
is gated on the module-level `RERUN` constant — so here the run proceeds: it
returns the captured text instead of `None` and overwrites the result
fields. -/
theorem c1_rerun_argument_ignored :
    sampleExecutedTask.runTask false true 1 2 [] ≠ (sampleExecutedTask, none) := by
  have h := runTask_timeout sampleExecutedTask false true 1 2 [] (by rfl)
    (by with_unfolding_all decide)
  intro heq
  rw [heq] at h
  exact Option.noConfusion (congrArg Prod.snd h)

/-- Claim C1 (amended): for every task whose has-executed flag is true,
calling `runTask` while the module-level `RERUN` constant is false — whatever
the value of the unread `rerun` argument — is a no-op: it returns `None`
without launching the external process and every result field is unchanged
(the whole object state is returned as is). -/
theorem c1_skip_when_global_norerun (s : infoliTask) (rerun : Bool)
    (t0 t1 : ℚ) (out : List Char) (hexec : s.executed = true) :
    s.runTask rerun false t0 t1 out = (s, none) := by
  apply runTask_skip
  rw [hexec]
  rfl

/-- Witness for C1 (amended) at a concrete executed task. -/
theorem c1_skip_when_global_norerun_witness :
    sampleExecutedTask.runTask false false 0 0 [] = (sampleExecutedTask, none) :=
  c1_skip_when_global_norerun sampleExecutedTask false 0 0 [] rfl

/-- Claim C2: whenever the captured text contains `NOTIMEOUT` but the
`Setup:`/`Run:`/`Peak` scan fails (either `float()` conversion raises), a
non-skipped `runTask` sets has-ended-in-error true and has-timed-out false,
returns the captured text normally (no exception escapes — the model stays in
the ordinary return path), and `setupTime` keeps whatever value was parsed
before the failure (the prior value if the first conversion already failed)
while `execTime` keeps its prior value. -/
theorem c2_scan_failure_sets_error (s : infoliTask) (rerun RERUN : Bool)
    (t0 t1 : ℚ) (out : List Char)
    (hrun : (s.executed && !RERUN) = false)
    (hnt : pyFind out notimeoutPat > -1)
    (hfail : pyFloat? (setupSliceOf out) = none ∨ pyFloat? (execSliceOf out) = none) :
    (s.runTask rerun RERUN t0 t1 out).1.endedInError = true
    ∧ (s.runTask rerun RERUN t0 t1 out).1.endedInTimeout = false
    ∧ (s.runTask rerun RERUN t0 t1 out).2 = some out
    ∧ (s.runTask rerun RERUN t0 t1 out).1.setupTime
        = (pyFloat? (setupSliceOf out)).getD s.setupTime
    ∧ (s.runTask rerun RERUN t0 t1 out).1.execTime = s.execTime := by
  cases h1 : pyFloat? (setupSliceOf out) with
  | none =>
    rw [runTask_err_setup s rerun RERUN t0 t1 out hrun hnt h1]
    exact ⟨rfl, rfl, rfl, rfl, rfl⟩
  | some st =>
    cases hfail with
    | inl h => rw [h1] at h; cases h
    | inr h2 =>
      rw [runTask_err_exec s rerun RERUN t0 t1 out st hrun hnt h1 h2]
      exact ⟨rfl, rfl, rfl, rfl, rfl⟩

/-- Witness for C2: the malformed output `"NOTIMEOUT\nSetup: abc Run: ..."`
on a fresh task. -/
theorem c2_scan_failure_sets_error_witness :
    (sampleTask.runTask false true 0 5 malformedOut).1.endedInError = true
    ∧ (sampleTask.runTask false true 0 5 malformedOut).1.endedInTimeout = false
    ∧ (sampleTask.runTask false true 0 5 malformedOut).2 = some malformedOut
    ∧ (sampleTask.runTask false true 0 5 malformedOut).1.setupTime
        = (pyFloat? (setupSliceOf malformedOut)).getD sampleTask.setupTime
    ∧ (sampleTask.runTask false true 0 5 malformedOut).1.execTime
        = sampleTask.execTime :=
  c2_scan_failure_sets_error sampleTask false true 0 5 malformedOut rfl
    (by with_unfolding_all decide) (Or.inl (by with_unfolding_all rfl))

/-- Claim C5: on the captured text
`"...\nSetup: 1.250000 Run: 3.750000 \nPeak...NOTIMEOUT..."` a run of a fresh
task parses setup-time 1.25 and exec-time 3.75 and sets neither the timeout
nor the error flag. -/
theorem c5_wellformed_output_parsed :
    (sampleTask.runTask false true 0 5 sampleOut).1.setupTime = 1.25
    ∧ (sampleTask.runTask false true 0 5 sampleOut).1.execTime = 3.75
    ∧ (sampleTask.runTask false true 0 5 sampleOut).1.endedInTimeout = false
    ∧ (sampleTask.runTask false true 0 5 sampleOut).1.endedInError = false := by
  have h1 : pyFloat? (setupSliceOf sampleOut) = some (5/4) := by
    with_unfolding_all rfl
  have h2 : pyFloat? (execSliceOf sampleOut) = some (15/4) := by
    with_unfolding_all rfl
  rw [runTask_ok sampleTask false true 0 5 sampleOut (5/4) (15/4) rfl
    (by with_unfolding_all decide) h1 h2]
  refine ⟨?_, ?_, rfl, rfl⟩ <;> norm_num

/-- Claim C6: when the captured text lacks the `NOTIMEOUT` marker, a
non-skipped `runTask` classifies the run as timed out and leaves `setupTime`,
`execTime` and `endedInError` untouched at their prior values. -/
theorem c6_missing_marker_times_out (s : infoliTask) (rerun RERUN : Bool)
    (t0 t1 : ℚ) (out : List Char)
    (hrun : (s.executed && !RERUN) = false)
    (hnt : ¬ (pyFind out notimeoutPat > -1)) :
    (s.runTask rerun RERUN t0 t1 out).1.endedInTimeout = true
    ∧ (s.runTask rerun RERUN t0 t1 out).1.setupTime = s.setupTime
    ∧ (s.runTask rerun RERUN t0 t1 out).1.execTime = s.execTime
    ∧ (s.runTask rerun RERUN t0 t1 out).1.endedInError = s.endedInError := by
  rw [runTask_timeout s rerun RERUN t0 t1 out hrun hnt]
  exact ⟨rfl, rfl, rfl, rfl⟩

/-- Witness for C6: a fresh task run against an output without the marker
keeps the pre-run defaults (0.0) in `setupTime`/`execTime`. -/
theorem c6_missing_marker_times_out_witness :
    (sampleTask.runTask false true 0 7 ("killed by limit".toList)).1.endedInTimeout = true
    ∧ (sampleTask.runTask false true 0 7 ("killed by limit".toList)).1.setupTime
        = sampleTask.setupTime
    ∧ (sampleTask.runTask false true 0 7 ("killed by limit".toList)).1.execTime
        = sampleTask.execTime
    ∧ (sampleTask.runTask false true 0 7 ("killed by limit".toList)).1.endedInError
        = sampleTask.endedInError :=
  c6_missing_marker_times_out sampleTask false true 0 7 ("killed by limit".toList)
    rfl (by with_unfolding_all decide)

/-- Claim C7: `hasFinished` is false immediately after construction, is true
after any completed `runTask` call whatever the outcome (skip included, since
that branch requires the flag to be true already), and since `runTask` is the
only state-changing operation, the flag never reverts to false. -/
theorem c7_executed_flag_lifecycle :
    (∀ (n c d m cp tmo : ℚ) (t : infoliTask),
        infoliTask.init n c d m cp tmo = Except.ok t → t.hasFinished = false)
    ∧ (∀ (s : infoliTask) (rerun RERUN : Bool) (t0 t1 : ℚ) (out : List Char),
        ((s.runTask rerun RERUN t0 t1 out).1).hasFinished = true) := by
  constructor
  · intro n c d m cp tmo t h
    rw [init_ok_fields h]
    rfl
  · intro s rerun RERUN t0 t1 out
    by_cases hskip : (s.executed && !RERUN) = true
    · rw [runTask_skip s rerun RERUN t0 t1 out hskip]
      cases hse : s.executed with
      | true => exact hse
      | false => rw [hse] at hskip; exact absurd hskip (by simp)
    · simp only [Bool.not_eq_true] at hskip
      by_cases hnt : pyFind out notimeoutPat > -1
      · cases h1 : pyFloat? (setupSliceOf out) with
        | none => rw [runTask_err_setup s rerun RERUN t0 t1 out hskip hnt h1]; rfl
        | some st =>
          cases h2 : pyFloat? (execSliceOf out) with
          | none => rw [runTask_err_exec s rerun RERUN t0 t1 out st hskip hnt h1 h2]; rfl
          | some ex => rw [runTask_ok s rerun RERUN t0 t1 out st ex hskip hnt h1 h2]; rfl
      · rw [runTask_timeout s rerun RERUN t0 t1 out hskip hnt]; rfl

/-- Witness for C7 on a concrete constructed task and a concrete run. -/
theorem c7_executed_flag_lifecycle_witness :
    sampleTask.hasFinished = false
    ∧ ((sampleTask.runTask false true 0 1 []).1).hasFinished = true :=
  ⟨c7_executed_flag_lifecycle.1 1000 (1/100) (1/100000) 1024 1 86400 sampleTask
      (by with_unfolding_all rfl),
   c7_executed_flag_lifecycle.2 sampleTask false true 0 1 []⟩

/-- Claim C9: starting from a freshly constructed task, no single completed
`runTask` call leaves both `endedInTimeout` and `endedInError` true: the
timeout branch keeps the constructed `endedInError = false`, the parse-error
branches set `endedInTimeout` to false, and the success branch sets both to
false. -/
theorem c9_flags_not_both (n c d m cp tmo : ℚ) (t : infoliTask)
    (rerun RERUN : Bool) (t0 t1 : ℚ) (out : List Char)
    (h : infoliTask.init n c d m cp tmo = Except.ok t) :
    ¬ ((t.runTask rerun RERUN t0 t1 out).1.endedInTimeout = true
       ∧ (t.runTask rerun RERUN t0 t1 out).1.endedInError = true) := by
  have ht := init_ok_fields h
  subst ht
  set t : infoliTask :=
    { simTime := d, connectivity := c, neurons := pyInt n, memory := pyInt m,
      CPU := cp, timeout := pyInt tmo, setupTime := 0, execTime := 0,
      startExec := 0, endExec := 0, measTime := 0, executed := false,
      endedInTimeout := false, endedInError := false } with hdef
  by_cases hskip : (t.executed && !RERUN) = true
  · rw [runTask_skip t rerun RERUN t0 t1 out hskip]
    intro hc
    exact Bool.false_ne_true hc.1
  · simp only [Bool.not_eq_true] at hskip
    by_cases hnt : pyFind out notimeoutPat > -1
    · cases h1 : pyFloat? (setupSliceOf out) with
      | none =>
        rw [runTask_err_setup t rerun RERUN t0 t1 out hskip hnt h1]
        intro hc
        exact Bool.false_ne_true hc.1
      | some st =>
        cases h2 : pyFloat? (execSliceOf out) with
        | none =>
          rw [runTask_err_exec t rerun RERUN t0 t1 out st hskip hnt h1 h2]
          intro hc
          exact Bool.false_ne_true hc.1
        | some ex =>
          rw [runTask_ok t rerun RERUN t0 t1 out st ex hskip hnt h1 h2]
          intro hc
          exact Bool.false_ne_true hc.1
    · rw [runTask_timeout t rerun RERUN t0 t1 out hskip hnt]
      intro hc
      exact Bool.false_ne_true hc.2

/-- Witness for C9 on a concrete constructed task and a concrete run. -/
theorem c9_flags_not_both_witness :
    ¬ ((sampleTask.runTask false true 0 1 sampleOut).1.endedInTimeout = true
       ∧ (sampleTask.runTask false true 0 1 sampleOut).1.endedInError = true) :=
  c9_flags_not_both 1000 (1/100) (1/100000) 1024 1 86400 sampleTask false true 0 1
    sampleOut (by with_unfolding_all rfl)

/-- Claim C10: the early-return branch of `runTask` (taken when the task has
executed and the `RERUN` constant is false) returns `None`; every branch that
actually launches the external process returns the raw captured text. -/
theorem c10_skip_returns_none (s : infoliTask) (rerun RERUN : Bool)
    (t0 t1 : ℚ) (out : List Char) :
    ((s.executed && !RERUN) = true → (s.runTask rerun RERUN t0 t1 out).2 = none)
    ∧ ((s.executed && !RERUN) = false →
        (s.runTask rerun RERUN t0 t1 out).2 = some out) := by
  constructor
  · intro h
    rw [runTask_skip s rerun RERUN t0 t1 out h]
  · intro h
    by_cases hnt : pyFind out notimeoutPat > -1
    · cases h1 : pyFloat? (setupSliceOf out) with
      | none => rw [runTask_err_setup s rerun RERUN t0 t1 out h hnt h1]
      | some st =>
        cases h2 : pyFloat? (execSliceOf out) with
        | none => rw [runTask_err_exec s rerun RERUN t0 t1 out st h hnt h1 h2]
        | some ex => rw [runTask_ok s rerun RERUN t0 t1 out st ex h hnt h1 h2]
    · rw [runTask_timeout s rerun RERUN t0 t1 out h hnt]

/-- Witness for C10: a skipped call returns `None`; an executing call returns
the captured text. -/
theorem c10_skip_returns_none_witness :
    (sampleExecutedTask.runTask true false 0 0 []).2 = none
    ∧ (sampleTask.runTask false true 0 1 []).2 = some [] :=
  ⟨(c10_skip_returns_none sampleExecutedTask true false 0 0 []).1 rfl,
   (c10_skip_returns_none sampleTask false true 0 1 []).2 rfl⟩

/-- Claim C3: construction fails (with the `ValueError` message naming the
first offending field, in source check order) if and only if a validation
rule is violated — neurons < 1, connectivity outside [0,1], simTime ≤ 0,
memory ≤ 0, cpu ≤ 0 or timeout < 0; otherwise it succeeds and the task is
unexecuted with every result field zero/false. -/
theorem c3_constructor_validation (n c d m cp tmo : ℚ) :
    ((∃ t, infoliTask.init n c d m cp tmo = Except.ok t) ↔
      ¬ (n < 1 ∨ c < 0 ∨ c > 1 ∨ d ≤ 0 ∨ m ≤ 0 ∨ cp ≤ 0 ∨ tmo < 0))
    ∧ (n < 1 →
        infoliTask.init n c d m cp tmo
          = Except.error "Number of neurons must be at least 1")
    ∧ (¬ n < 1 → (c < 0 ∨ c > 1) →
        infoliTask.init n c d m cp tmo
          = Except.error "Connectivity must lie within range [0,1]")
    ∧ (¬ n < 1 → ¬ (c < 0 ∨ c > 1) → d ≤ 0 →
        infoliTask.init n c d m cp tmo
          = Except.error "simTime has to be larger than 0")
    ∧ (¬ n < 1 → ¬ (c < 0 ∨ c > 1) → ¬ d ≤ 0 → m ≤ 0 →
        infoliTask.init n c d m cp tmo
          = Except.error "Memory must be larger than 0 MB")
    ∧ (¬ n < 1 → ¬ (c < 0 ∨ c > 1) → ¬ d ≤ 0 → ¬ m ≤ 0 → cp ≤ 0 →
        infoliTask.init n c d m cp tmo
          = Except.error "Number of CPUs must be a number larger than 0")
    ∧ (¬ n < 1 → ¬ (c < 0 ∨ c > 1) → ¬ d ≤ 0 → ¬ m ≤ 0 → ¬ cp ≤ 0 → tmo < 0 →
        infoliTask.init n c d m cp tmo
          = Except.error "Timout must be either 0 (no timeout defined) or a positive number.")
    ∧ (∀ t, infoliTask.init n c d m cp tmo = Except.ok t →
        t.executed = false ∧ t.endedInTimeout = false ∧ t.endedInError = false
        ∧ t.setupTime = 0 ∧ t.execTime = 0 ∧ t.startExec = 0 ∧ t.endExec = 0
        ∧ t.measTime = 0) := by
  unfold infoliTask.init
  split_ifs with h1 h2 h3 h4 h5 h6 <;> simp_all
  intro hc1 hc2 _ _ _
  exfalso
  rcases h2 with hc | hc <;> linarith

/-- Witness for C3 at a concrete valid parameter tuple. -/
theorem c3_constructor_validation_witness :
    ∃ t, infoliTask.init 1000 (1/100) (1/100000) 1024 1 86400 = Except.ok t :=
  (c3_constructor_validation 1000 (1/100) (1/100000) 1024 1 86400).1.mpr
    (by norm_num)

/-- Claim C4: for valid parameters construction succeeds and
`getData()["parameters"]` echoes the inputs, with `neurons`, `memory` and
`timeout` truncated by Python `int()` and `connectivity`, `simTime`, `cpu`
returned unchanged. -/
theorem c4_parameters_echoed (n c d m cp tmo : ℚ)
    (h1 : ¬ n < 1) (h2 : ¬ (c < 0 ∨ c > 1)) (h3 : ¬ d ≤ 0) (h4 : ¬ m ≤ 0)
    (h5 : ¬ cp ≤ 0) (h6 : ¬ tmo < 0) :
    ∃ t, infoliTask.init n c d m cp tmo = Except.ok t
      ∧ (infoliTask.getData t).1 =
          [("simTime", PyVal.float d), ("connectivity", PyVal.float c),
           ("neurons", PyVal.int (pyInt n)), ("memory", PyVal.int (pyInt m)),
           ("CPU", PyVal.float cp), ("timeout", PyVal.int (pyInt tmo))] := by
  refine ⟨{ simTime := d, connectivity := c, neurons := pyInt n,
            memory := pyInt m, CPU := cp, timeout := pyInt tmo, setupTime := 0,
            execTime := 0, startExec := 0, endExec := 0, measTime := 0,
            executed := false, endedInTimeout := false, endedInError := false },
          ?_, rfl⟩
  unfold infoliTask.init
  rw [if_neg h1, if_neg h2, if_neg h3, if_neg h4, if_neg h5, if_neg h6]

/-- Witness for C4 at a concrete valid parameter tuple with fractional
neuron/memory/timeout inputs exercising the truncation. -/
theorem c4_parameters_echoed_witness :
    ∃ t, infoliTask.init (3/2) (1/100) (1/100000) 1024 1 86400 = Except.ok t
      ∧ (infoliTask.getData t).1 =
          [("simTime", PyVal.float (1/100000)), ("connectivity", PyVal.float (1/100)),
           ("neurons", PyVal.int (pyInt (3/2))), ("memory", PyVal.int (pyInt 1024)),
           ("CPU", PyVal.float 1), ("timeout", PyVal.int (pyInt 86400))] :=
  c4_parameters_echoed (3/2) (1/100) (1/100000) 1024 1 86400 (by norm_num)
    (by norm_num) (by norm_num) (by norm_num) (by norm_num) (by norm_num)

set_option maxHeartbeats 2000000 in
/-- Claim C8: writing to a non-existing file produces a header row followed
by exactly one data row; a second write to the now-existing file appends
exactly one more data row and no second header.  The data row is the value
list of the merged parameters-then-results mapping (`d1.update(results)`,
result values winning on collisions), which, the key sets being disjoint,
is the concatenation of the two dictionaries. -/
theorem c8_csv_header_and_rows (t t2 : infoliTask) :
    t.writeToCSV none = [headerRowOf t, dataRowOf t]
    ∧ t2.writeToCSV (some (t.writeToCSV none))
        = [headerRowOf t, dataRowOf t, dataRowOf t2]
    ∧ mergedData t = paramsDict t ++ resultsDict t
    ∧ dataRowOf t = (mergedData t).map Prod.snd := by
  have hm : mergedData t = paramsDict t ++ resultsDict t := by
    rw [mergedData, infoliTask.getData]
    simp only [dictUpdate, List.foldl, List.lookup, paramsDict, resultsDict]
    simp
  refine ⟨rfl, rfl, hm, ?_⟩
  simp only [dataRowOf, csvColumns, hm]
  simp only [paramsDict, resultsDict, List.map, List.lookup]
  simp
